import Mathlib

/-!
Verification of the outfit-generation core of the wardrobe application
(`outfit_maker.py`): the compatibility rule engine, the rejection-sampling
outfit assembler, and the substitution validator.  Definitions are a shallow
embedding of the Python source; randomness is modelled by an explicit stream
of attempt-level random draws.
-/

namespace Wardrobe

/-- A wardrobe item record, as stored in the catalog: `id`, `category`
(`Top`, `Bottom`, `Dress`, `Outerwear`, `Accessory`, `Shoes`), free-form
`color`, `pattern`, and `formality` string. -/
structure ClothingItem where
  id : Nat
  category : String
  color : String
  pattern : String
  formality : String
deriving Repr, DecidableEq

/-- Python `str.lower()`: lowercase every character. -/
def str_lower (s : String) : String :=
  ⟨s.data.map Char.toLower⟩

/-- `OutfitGenerator.formality_levels`: dictionary lookup with default 0. -/
def formality_levels (s : String) : Nat :=
  if s = "casual" then 1
  else if s = "smart casual" then 2
  else if s = "semi-formal" then 3
  else if s = "formal" then 4
  else 0

/-- `OutfitGenerator.occasion_formality_map`: dictionary lookup with
default 0 (`.get(occasion_type, 0)`). -/
def occasion_formality_map (s : String) : Nat :=
  if s = "Any" then 0
  else if s = "Casual Day Out" then 1
  else if s = "Work/Office" then 2
  else if s = "Date Night" then 2
  else if s = "Party" then 3
  else if s = "Formal Event" then 4
  else 0

/-- `OutfitGenerator.clashing_colors`: the hand-authored clash adjacency
dictionary; `none` models a key absent from the dict. -/
def clashing_colors (c : String) : Option (List String) :=
  if c = "red" then some ["orange", "pink", "green"]
  else if c = "orange" then some ["red", "purple", "blue"]
  else if c = "yellow" then some ["purple", "brown"]
  else if c = "green" then some ["red", "purple", "brown"]
  else if c = "blue" then some ["orange"]
  else if c = "purple" then some ["yellow", "green", "orange"]
  else if c = "pink" then some ["red", "brown"]
  else if c = "brown" then some ["yellow", "green", "pink"]
  else if c = "black" then some []
  else if c = "white" then some []
  else if c = "grey" then some []
  else if c = "beige" then some []
  else if c = "navy" then some []
  else none

/-- `OutfitGenerator.neutral_colors`. -/
def neutral_colors : List String := ["black", "white", "grey", "beige", "navy"]

/-- `x in clashing_colors and y in clashing_colors[x]` from
`_do_colors_clash`. -/
def clashesWith (x y : String) : Bool :=
  match clashing_colors x with
  | some l => decide (y ∈ l)
  | none => false

/-- `OutfitGenerator._do_colors_clash`. -/
def _do_colors_clash (color1 color2 : String) : Bool :=
  if color1 = "" ∨ color2 = "" then false
  else if str_lower color1 ∈ neutral_colors ∨ str_lower color2 ∈ neutral_colors then false
  else clashesWith (str_lower color1) (str_lower color2)
       || clashesWith (str_lower color2) (str_lower color1)

/-- `OutfitGenerator._do_formalities_match` (callers always use the default
tolerance 1; the tolerance is passed explicitly here). -/
def _do_formalities_match (item1 item2 : Option ClothingItem) (tolerance : Nat) : Bool :=
  match item1, item2 with
  | some i1, some i2 =>
      ((formality_levels (str_lower i1.formality) : Int)
        - (formality_levels (str_lower i2.formality) : Int)).natAbs ≤ tolerance
  | _, _ => true

/-- `OutfitGenerator._is_item_suitable_for_occasion`. -/
def _is_item_suitable_for_occasion (item : ClothingItem) (occasion_formality_level : Nat) : Bool :=
  if occasion_formality_level = 0 then true
  else ((formality_levels (str_lower item.formality) : Int)
        - (occasion_formality_level : Int)).natAbs ≤ 1

/-- `OutfitGenerator._do_patterns_match`: at most one non-solid pattern. -/
def _do_patterns_match (selected_items : List ClothingItem) : Bool :=
  (selected_items.filter (fun i => str_lower i.pattern ≠ "solid")).length ≤ 1

/-- The outfit dictionary built by `generate_outfit`, with the slots in the
source's key order: `top`, `bottom`, `dress`, `outerwear`, `accessories`,
`shoes`. -/
structure Outfit where
  top : Option ClothingItem
  bottom : Option ClothingItem
  dress : Option ClothingItem
  outerwear : Option ClothingItem
  accessories : List ClothingItem
  shoes : Option ClothingItem
deriving Repr, DecidableEq

/-- The slot names the change-item dialog can be opened for
(`outfit_positions` keys). -/
inductive Slot where
  | top
  | bottom
  | dress
  | outerwear
  | shoes
  | accessories
deriving Repr, DecidableEq

/-- The lowercase string key of a slot (`item_type_to_change.lower()`). -/
def slotKey : Slot → String
  | .top => "top"
  | .bottom => "bottom"
  | .dress => "dress"
  | .outerwear => "outerwear"
  | .shoes => "shoes"
  | .accessories => "accessories"

/-- A `None`-or-item outfit entry as a zero/one-element list. -/
def optToList : Option ClothingItem → List ClothingItem
  | some x => [x]
  | none => []

/-- The `proposed_outfit_items` list of `open_change_item_dialog`: present
slot items in the source order top, bottom, dress, outerwear, shoes, then
the accessory list. -/
def outfitItems (o : Outfit) : List ClothingItem :=
  optToList o.top ++ optToList o.bottom ++ optToList o.dress
    ++ optToList o.outerwear ++ optToList o.shoes ++ o.accessories

/-- `current_outfit_copy[slot] = item` (for `accessories`, the whole list is
replaced by `[item]`); no other slot is touched. -/
def replaceSlot (o : Outfit) (s : Slot) (item : ClothingItem) : Outfit :=
  match s with
  | .top => { o with top := some item }
  | .bottom => { o with bottom := some item }
  | .dress => { o with dress := some item }
  | .outerwear => { o with outerwear := some item }
  | .shoes => { o with shoes := some item }
  | .accessories => { o with accessories := [item] }

/-- The nested `for i / for j in range(i+1, …)` pairwise loop of
`open_change_item_dialog`, with its early exits: every later item must not
clash with and must be formality-compatible with the current one. -/
def pairwise_compat : List ClothingItem → Bool
  | [] => true
  | x :: xs =>
      (xs.all fun y =>
        !_do_colors_clash x.color y.color && _do_formalities_match (some x) (some y) 1)
      && pairwise_compat xs

/-- The per-candidate compatibility checks of `open_change_item_dialog`,
run in source order after the category filter: occasion suitability of the
candidate, the pairwise clash/formality loop over the hypothetical item
set, then the pattern gate. -/
def validateReplacement (o : Outfit) (s : Slot) (cand : ClothingItem)
    (occLvl : Nat) : Bool :=
  _is_item_suitable_for_occasion cand occLvl
  && pairwise_compat (outfitItems (replaceSlot o s cand))
  && _do_patterns_match (outfitItems (replaceSlot o s cand))

/-- The category filter at the top of the candidate loop in
`open_change_item_dialog`: the item's case-folded category must equal the
slot key, except that the `accessories` slot also admits category
`accessory`. -/
def categoryMatchesSlot (s : Slot) (item : ClothingItem) : Bool :=
  decide (str_lower item.category = slotKey s
    ∨ (s = Slot.accessories ∧ str_lower item.category = "accessory"))

/-- Full acceptance of a candidate in `open_change_item_dialog`: category
filter, then the compatibility checks. -/
def candidateAccepted (o : Outfit) (s : Slot) (occLvl : Nat)
    (item : ClothingItem) : Bool :=
  categoryMatchesSlot s item && validateReplacement o s item occLvl

/-- Applying an accepted replacement (`select_item`): a dress clears top and
bottom; a top or bottom clears a set dress; `accessories` replaces the whole
list. -/
def applyReplacement (o : Outfit) (s : Slot) (item : ClothingItem) : Outfit :=
  match s with
  | .accessories => { o with accessories := [item] }
  | .dress => { o with top := none, bottom := none, dress := some item }
  | .top =>
      if o.dress.isSome then { o with dress := none, top := some item }
      else { o with top := some item }
  | .bottom =>
      if o.dress.isSome then { o with dress := none, bottom := some item }
      else { o with bottom := some item }
  | .outerwear => { o with outerwear := some item }
  | .shoes => { o with shoes := some item }

/-- Torso exclusivity: `dress` is never populated together with `top` or
`bottom`. -/
def torso_ok (o : Outfit) : Bool :=
  !(o.dress.isSome && (o.top.isSome || o.bottom.isSome))

/-- The per-category pools of `OutfitGenerator.__init__`: items whose
category string equals the pool's key, in catalog order. -/
def itemsOf (items : List ClothingItem) (cat : String) : List ClothingItem :=
  items.filter (fun i => i.category = cat)

/-- One attempt's `available_<category>` pool: the category pool filtered by
`_is_item_suitable_for_occasion`. -/
def suitablePool (items : List ClothingItem) (cat : String) (lvl : Nat) :
    List ClothingItem :=
  (itemsOf items cat).filter (fun i => _is_item_suitable_for_occasion i lvl)

/-- The random draws consumed by one attempt of the search loop:
`dressRoll` is the outcome of `random.random() < 0.3`; the `Idx` fields
select `random.choice` picks (reduced modulo the pool size); `accCount`
selects the `random.randint(0, min(len, 3))` outcome (reduced modulo the
range size); `accIdx k` is the k-th accessory draw. -/
structure AttemptRand where
  dressRoll : Bool
  dressIdx : Nat
  topIdx : Nat
  bottomIdx : Nat
  outerIdx : Nat
  shoesIdx : Nat
  accCount : Nat
  accIdx : Nat → Nat

/-- A fixed choice of random draws, used for concrete runs. -/
def defaultRand : AttemptRand :=
  ⟨false, 0, 0, 0, 0, 0, 0, fun _ => 0⟩

/-- `OutfitGenerator._get_random_element`: `None` on an empty list,
otherwise an arbitrary element (the draw index reduced modulo the
length, so every element is reachable). -/
def _get_random_element (arr : List ClothingItem) (idx : Nat) :
    Option ClothingItem :=
  arr.get? (idx % arr.length)

/-- `a if a else b` over optional items. -/
def firstSome (a b : Option ClothingItem) : Option ClothingItem :=
  match a with
  | some x => some x
  | none => b

/-- Step 1 of an attempt (torso decision): either a dress (when the dress
pool is non-empty and either no top is available or the 30% roll fires), or
an independently drawn top+bottom pair that must pass the formality and
clash gates; `none` means the attempt is rejected (`continue`). -/
def anchorStep (tops bottoms dresses : List ClothingItem) (r : AttemptRand) :
    Option (Outfit × List ClothingItem) :=
  match (if !dresses.isEmpty && (tops.isEmpty || r.dressRoll)
         then _get_random_element dresses r.dressIdx else none) with
  | some d => some (⟨none, none, some d, none, [], none⟩, [d])
  | none =>
    match _get_random_element tops r.topIdx,
          _get_random_element bottoms r.bottomIdx with
    | some t, some b =>
        if !_do_formalities_match (some t) (some b) 1
           || _do_colors_clash t.color b.color
        then none
        else some (⟨some t, some b, none, none, [], none⟩, [t, b])
    | _, _ => none

/-- Step 2 of an attempt: optional outerwear, accepted only when
formality-compatible with and non-clashing against the anchor (dress if
present, else top); rejection leaves the outfit unchanged. -/
def outerStep (pool : List ClothingItem) (idx : Nat) (o : Outfit)
    (sel : List ClothingItem) : Outfit × List ClothingItem :=
  if pool.isEmpty then (o, sel)
  else
    match _get_random_element pool idx with
    | none => (o, sel)
    | some ow =>
      match firstSome o.dress o.top with
      | some base =>
          if _do_formalities_match (some base) (some ow) 1
             && !_do_colors_clash base.color ow.color
          then ({ o with outerwear := some ow }, sel ++ [ow])
          else (o, sel)
      | none => (o, sel)

/-- Step 3 of an attempt: optional shoes, compared against the dress if
present, else the bottom, else the top. -/
def shoesStep (pool : List ClothingItem) (idx : Nat) (o : Outfit)
    (sel : List ClothingItem) : Outfit × List ClothingItem :=
  if pool.isEmpty then (o, sel)
  else
    match _get_random_element pool idx with
    | none => (o, sel)
    | some sh =>
      match firstSome o.dress (firstSome o.bottom o.top) with
      | some base =>
          if _do_formalities_match (some base) (some sh) 1
             && !_do_colors_clash base.color sh.color
          then ({ o with shoes := some sh }, sel ++ [sh])
          else (o, sel)
      | none => (o, sel)

/-- One iteration of the accessory loop body: draw a candidate, skip it if
its id was already chosen, otherwise accept it only if compatible with the
anchor (dress if present, else top). -/
def accStepOne (pool : List ClothingItem) (base : Option ClothingItem)
    (chosen : List ClothingItem) (idx : Nat) : List ClothingItem :=
  match _get_random_element pool idx with
  | none => chosen
  | some a =>
    if a.id ∈ chosen.map (fun i => i.id) then chosen
    else
      match base with
      | none => chosen
      | some b =>
          if _do_formalities_match (some b) (some a) 1
             && !_do_colors_clash b.color a.color
          then chosen ++ [a]
          else chosen

/-- The `for _ in range(num_accessories)` loop. -/
def accLoop (pool : List ClothingItem) (base : Option ClothingItem)
    (accIdx : Nat → Nat) (num : Nat) : List ClothingItem :=
  (List.range num).foldl (fun chosen k => accStepOne pool base chosen (accIdx k)) []

/-- Step 4 of an attempt: accessories; the draw count is
`randint(0, min(len(pool), 3))`. -/
def accessoriesStep (pool : List ClothingItem) (r : AttemptRand) (o : Outfit)
    (sel : List ClothingItem) : Outfit × List ClothingItem :=
  if pool.isEmpty then (o, sel)
  else
    let num := r.accCount % (min pool.length 3 + 1)
    let accs := accLoop pool (firstSome o.dress o.top) r.accIdx num
    ({ o with accessories := accs }, sel ++ accs)

/-- Outcome of one loop iteration: a finished outfit, a `continue`, or the
in-loop `return None`. -/
inductive AttemptResult where
  | success (o : Outfit)
  | retry
  | permFail
deriving Repr, DecidableEq

/-- One iteration of the `while attempts < max_attempts` body of
`OutfitGenerator.generate_outfit`. -/
def attempt (items : List ClothingItem) (lvl : Nat) (r : AttemptRand) :
    AttemptResult :=
  match anchorStep (suitablePool items "Top" lvl) (suitablePool items "Bottom" lvl)
      (suitablePool items "Dress" lvl) r with
  | none => .retry
  | some (o, sel) =>
    if sel.isEmpty then .permFail
    else
      let p1 := outerStep (suitablePool items "Outerwear" lvl) r.outerIdx o sel
      let p2 := shoesStep (suitablePool items "Shoes" lvl) r.shoesIdx p1.1 p1.2
      let p3 := accessoriesStep (suitablePool items "Accessory" lvl) r p2.1 p2.2
      if _do_patterns_match p3.2 then .success p3.1 else .retry

/-- `max_attempts = 1000`. -/
def max_attempts : Nat := 1000

/-- The retry loop of `OutfitGenerator.generate_outfit`, consuming one
entry of the random stream per attempt. -/
def generate_outfit_aux (items : List ClothingItem) (lvl : Nat)
    (rands : Nat → AttemptRand) : Nat → Nat → Option Outfit
  | 0, _ => none
  | fuel + 1, k =>
    match attempt items lvl (rands k) with
    | .success o => some o
    | .permFail => none
    | .retry => generate_outfit_aux items lvl rands fuel (k + 1)

/-- `OutfitGenerator.generate_outfit(occasion_type)` over a catalog and an
explicit random stream. -/
def generate_outfit (items : List ClothingItem) (occasion_type : String)
    (rands : Nat → AttemptRand) : Option Outfit :=
  generate_outfit_aux items (occasion_formality_map occasion_type) rands max_attempts 0

/-- The number of loop iterations the `attempts` counter reaches before the
loop exits. -/
def generate_attempts_aux (items : List ClothingItem) (lvl : Nat)
    (rands : Nat → AttemptRand) : Nat → Nat → Nat
  | 0, _ => 0
  | fuel + 1, k =>
    match attempt items lvl (rands k) with
    | .retry => 1 + generate_attempts_aux items lvl rands fuel (k + 1)
    | _ => 1

/-- `OutfitMakerApp.generate_outfit`: with an empty wardrobe the app warns
and returns before ever constructing the generator; otherwise it delegates
to `OutfitGenerator.generate_outfit`. -/
def app_generate_outfit (items : List ClothingItem) (occasion_type : String)
    (rands : Nat → AttemptRand) : Option Outfit :=
  if items.isEmpty then none
  else generate_outfit items occasion_type rands

/-- Search attempts consumed by the app-level entry point (0 when the
empty-wardrobe guard fires). -/
def app_generate_attempts (items : List ClothingItem) (occasion_type : String)
    (rands : Nat → AttemptRand) : Nat :=
  if items.isEmpty then 0
  else generate_attempts_aux items (occasion_formality_map occasion_type) rands max_attempts 0

/-- A concrete black casual top, used for concrete runs. -/
def demoTop : ClothingItem := ⟨1, "Top", "black", "Solid", "Casual"⟩

/-- A concrete black casual bottom, used for concrete runs. -/
def demoBottom : ClothingItem := ⟨2, "Bottom", "black", "Solid", "Casual"⟩

/-- A concrete black casual dress, used for concrete runs. -/
def demoDress : ClothingItem := ⟨3, "Dress", "black", "Solid", "Casual"⟩

/-- A concrete pair of black casual shoes, used for concrete runs. -/
def demoShoes : ClothingItem := ⟨4, "Shoes", "black", "Solid", "Casual"⟩

/-- The two-item demo catalog. -/
def demoItems : List ClothingItem := [demoTop, demoBottom]

/-- A fixed random stream. -/
def demoRands : Nat → AttemptRand := fun _ => defaultRand

/-- The outfit generated from the demo catalog. -/
def demoOutfit : Outfit := ⟨some demoTop, some demoBottom, none, none, [], none⟩

/-- A dress-anchored outfit, used for concrete substitution runs. -/
def dressedOutfit : Outfit := ⟨none, none, some demoDress, none, [], none⟩

/-! ### Helper lemmas -/

/-- Case-folding preserves emptiness. -/
theorem str_lower_eq_empty (s : String) : str_lower s = "" ↔ s = "" := by
  cases s with
  | mk data => simp [str_lower, String.ext_iff]

/-- The pairwise double loop of the substitution dialog is equivalent to the
declarative all-unordered-pairs condition. -/
theorem pairwise_compat_iff (l : List ClothingItem) :
    pairwise_compat l = true ↔
      l.Pairwise (fun a b => _do_colors_clash a.color b.color = false ∧
        _do_formalities_match (some a) (some b) 1 = true) := by
  induction l with
  | nil => simp [pairwise_compat]
  | cons x xs ih =>
    simp only [pairwise_compat, Bool.and_eq_true, List.all_eq_true,
      List.pairwise_cons, ih, Bool.not_eq_true']

/-! ### Claims about the rule engine -/

/-- C7: `colorsClash` returns false whenever either argument, case-folded,
is empty or belongs to the neutral set {black, white, grey, beige, navy}. -/
theorem colors_clash_neutral_or_empty (a b : String)
    (h : str_lower a = "" ∨ str_lower b = "" ∨
         str_lower a ∈ neutral_colors ∨ str_lower b ∈ neutral_colors) :
    _do_colors_clash a b = false := by
  unfold _do_colors_clash
  split_ifs with h1 h2
  · rfl
  · rfl
  · exfalso
    rcases h with h | h | h | h
    · exact h1 (Or.inl ((str_lower_eq_empty a).mp h))
    · exact h1 (Or.inr ((str_lower_eq_empty b).mp h))
    · exact h2 (Or.inl h)
    · exact h2 (Or.inr h)

/-- Witness for C7 at a concrete neutral color. -/
theorem colors_clash_neutral_or_empty_witness :
    str_lower "Black" ∈ neutral_colors ∧ _do_colors_clash "Black" "red" = false :=
  ⟨by decide, colors_clash_neutral_or_empty "Black" "red"
    (Or.inr (Or.inr (Or.inl (by decide))))⟩

/-- C8: `colorsClash` is symmetric in its arguments, because the check
tests both directions of the adjacency table. -/
theorem colors_clash_comm (a b : String) :
    _do_colors_clash a b = _do_colors_clash b a := by
  unfold _do_colors_clash
  split_ifs <;> first
    | rfl
    | exact Bool.or_comm _ _
    | tauto

/-! ### Claims about the substitution validator -/

/-- C3: a candidate passes the substitution validator iff the candidate is
occasion-suitable, every unordered pair of the hypothetical item set is
non-clashing and formality-compatible within tolerance 1, and the
hypothetical set passes the pattern gate. -/
theorem validateReplacement_iff (o : Outfit) (s : Slot) (cand : ClothingItem)
    (lvl : Nat) :
    validateReplacement o s cand lvl = true ↔
      (_is_item_suitable_for_occasion cand lvl = true ∧
       (outfitItems (replaceSlot o s cand)).Pairwise
         (fun a b => _do_colors_clash a.color b.color = false ∧
           _do_formalities_match (some a) (some b) 1 = true) ∧
       _do_patterns_match (outfitItems (replaceSlot o s cand)) = true) := by
  simp [validateReplacement, Bool.and_eq_true, pairwise_compat_iff, and_assoc]

/-- C10: an accepted substitution candidate always matches the targeted
slot's category (case-insensitively; the accessories slot accepts only
category `Accessory` among the app's category values). -/
theorem accepted_candidate_category (o : Outfit) (s : Slot) (lvl : Nat)
    (item : ClothingItem)
    (hcat : item.category ∈ ["Top", "Bottom", "Dress", "Outerwear", "Accessory", "Shoes"])
    (hacc : candidateAccepted o s lvl item = true) :
    (s = Slot.accessories → item.category = "Accessory") ∧
    (s ≠ Slot.accessories → str_lower item.category = slotKey s) := by
  have hmatch : categoryMatchesSlot s item = true :=
    ((Bool.and_eq_true _ _).mp hacc).1
  clear hacc
  have hP : str_lower item.category = slotKey s
      ∨ (s = Slot.accessories ∧ str_lower item.category = "accessory") :=
    of_decide_eq_true hmatch
  clear hmatch
  obtain ⟨i, cat, col, pat, f⟩ := item
  simp only [List.mem_cons, List.not_mem_nil, or_false] at hcat
  rcases hcat with rfl | rfl | rfl | rfl | rfl | rfl <;>
    cases s <;> revert hP <;> dsimp only <;> decide

/-- Witness for C10: a concrete accessory replacing the accessory set of an
empty outfit is accepted and has category `Accessory`. -/
theorem accepted_candidate_category_witness :
    (Slot.accessories = Slot.accessories →
      (ClothingItem.mk 5 "Accessory" "black" "Solid" "Casual").category = "Accessory") ∧
    (Slot.accessories ≠ Slot.accessories →
      str_lower (ClothingItem.mk 5 "Accessory" "black" "Solid" "Casual").category
        = slotKey Slot.accessories) :=
  accepted_candidate_category ⟨none, none, none, none, [], none⟩ Slot.accessories 0
    ⟨5, "Accessory", "black", "Solid", "Casual"⟩ (by decide) (by decide)

/-! ### Structural lemmas about the assembly attempt -/

/-- The outerwear step only ever adds outerwear. -/
theorem outerStep_fields (pool : List ClothingItem) (idx : Nat) (o : Outfit)
    (sel : List ClothingItem) :
    (outerStep pool idx o sel).1.top = o.top ∧
    (outerStep pool idx o sel).1.bottom = o.bottom ∧
    (outerStep pool idx o sel).1.dress = o.dress ∧
    (outerStep pool idx o sel).1.accessories = o.accessories := by
  unfold outerStep
  repeat' split
  all_goals simp

/-- The shoes step only ever adds shoes. -/
theorem shoesStep_fields (pool : List ClothingItem) (idx : Nat) (o : Outfit)
    (sel : List ClothingItem) :
    (shoesStep pool idx o sel).1.top = o.top ∧
    (shoesStep pool idx o sel).1.bottom = o.bottom ∧
    (shoesStep pool idx o sel).1.dress = o.dress ∧
    (shoesStep pool idx o sel).1.accessories = o.accessories := by
  unfold shoesStep
  repeat' split
  all_goals simp

/-- The accessories step only ever touches the accessory list. -/
theorem accessoriesStep_fields (pool : List ClothingItem) (r : AttemptRand)
    (o : Outfit) (sel : List ClothingItem) :
    (accessoriesStep pool r o sel).1.top = o.top ∧
    (accessoriesStep pool r o sel).1.bottom = o.bottom ∧
    (accessoriesStep pool r o sel).1.dress = o.dress := by
  unfold accessoriesStep
  repeat' split
  all_goals simp

/-- One accessory-loop iteration adds at most one item. -/
theorem accStepOne_length (pool : List ClothingItem) (base : Option ClothingItem)
    (chosen : List ClothingItem) (idx : Nat) :
    (accStepOne pool base chosen idx).length ≤ chosen.length + 1 := by
  unfold accStepOne
  repeat' split
  all_goals simp

/-- One accessory-loop iteration preserves distinctness of ids, because a
candidate whose id was already chosen is skipped. -/
theorem accStepOne_nodup (pool : List ClothingItem) (base : Option ClothingItem)
    (chosen : List ClothingItem) (idx : Nat)
    (h : (chosen.map (fun i => i.id)).Nodup) :
    ((accStepOne pool base chosen idx).map (fun i => i.id)).Nodup := by
  unfold accStepOne
  repeat' split
  all_goals simp_all [List.nodup_append, List.disjoint_singleton]

/-- Folding the accessory step over draw indices adds at most one item per
draw. -/
theorem accFoldl_length (pool : List ClothingItem) (base : Option ClothingItem)
    (f : Nat → Nat) (ks : List Nat) (chosen : List ClothingItem) :
    ((ks.foldl (fun c k => accStepOne pool base c (f k)) chosen)).length
      ≤ chosen.length + ks.length := by
  induction ks generalizing chosen with
  | nil => simp
  | cons k ks ih =>
    calc ((ks.foldl (fun c k => accStepOne pool base c (f k))
            (accStepOne pool base chosen (f k)))).length
        ≤ (accStepOne pool base chosen (f k)).length + ks.length := ih _
      _ ≤ chosen.length + 1 + ks.length := by
          have := accStepOne_length pool base chosen (f k)
          omega
      _ = chosen.length + (k :: ks).length := by simp; omega

/-- Folding the accessory step preserves distinctness of ids. -/
theorem accFoldl_nodup (pool : List ClothingItem) (base : Option ClothingItem)
    (f : Nat → Nat) (ks : List Nat) (chosen : List ClothingItem)
    (h : (chosen.map (fun i => i.id)).Nodup) :
    (((ks.foldl (fun c k => accStepOne pool base c (f k)) chosen)).map
      (fun i => i.id)).Nodup := by
  induction ks generalizing chosen with
  | nil => simpa
  | cons k ks ih => exact ih _ (accStepOne_nodup pool base chosen (f k) h)

/-- The accessory loop yields at most `num` accessories. -/
theorem accLoop_length (pool : List ClothingItem) (base : Option ClothingItem)
    (accIdx : Nat → Nat) (num : Nat) :
    (accLoop pool base accIdx num).length ≤ num := by
  have := accFoldl_length pool base accIdx (List.range num) []
  simpa [accLoop] using this

/-- The accessory loop yields pairwise distinct ids. -/
theorem accLoop_nodup (pool : List ClothingItem) (base : Option ClothingItem)
    (accIdx : Nat → Nat) (num : Nat) :
    ((accLoop pool base accIdx num).map (fun i => i.id)).Nodup := by
  have := accFoldl_nodup pool base accIdx (List.range num) [] (by simp)
  simpa [accLoop] using this

/-- The accessories step either leaves the accessory list alone or installs
a list of at most 3 accessories with pairwise distinct ids. -/
theorem accessoriesStep_accs (pool : List ClothingItem) (r : AttemptRand)
    (o : Outfit) (sel : List ClothingItem) :
    (accessoriesStep pool r o sel).1.accessories = o.accessories ∨
    ((accessoriesStep pool r o sel).1.accessories.length ≤ 3 ∧
     ((accessoriesStep pool r o sel).1.accessories.map (fun i => i.id)).Nodup) := by
  unfold accessoriesStep
  split
  · exact Or.inl rfl
  · refine Or.inr ⟨?_, ?_⟩
    · have h1 := accLoop_length pool (firstSome o.dress o.top) r.accIdx
        (r.accCount % (min pool.length 3 + 1))
      have h2 : r.accCount % (min pool.length 3 + 1) < min pool.length 3 + 1 :=
        Nat.mod_lt _ (Nat.succ_pos _)
      simp only []
      omega
    · simpa using accLoop_nodup pool (firstSome o.dress o.top) r.accIdx _

/-- A successful torso decision is either a lone dress or a top+bottom pair
that passed the formality and clash gates. -/
theorem anchorStep_eq (tops bottoms dresses : List ClothingItem) (r : AttemptRand)
    (o : Outfit) (sel : List ClothingItem)
    (h : anchorStep tops bottoms dresses r = some (o, sel)) :
    (∃ d, o = ⟨none, none, some d, none, [], none⟩ ∧ sel = [d]) ∨
    (∃ t b, o = ⟨some t, some b, none, none, [], none⟩ ∧ sel = [t, b] ∧
      _do_formalities_match (some t) (some b) 1 = true ∧
      _do_colors_clash t.color b.color = false) := by
  unfold anchorStep at h
  split at h
  · next d hd =>
    simp only [Option.some.injEq, Prod.mk.injEq] at h
    exact Or.inl ⟨d, h.1.symm, h.2.symm⟩
  · cases htop : _get_random_element tops r.topIdx with
    | none => rw [htop] at h; exact absurd h (by simp)
    | some t =>
      cases hbot : _get_random_element bottoms r.bottomIdx with
      | none => rw [htop, hbot] at h; exact absurd h (by simp)
      | some b =>
        rw [htop, hbot] at h
        dsimp only at h
        split at h
        · exact absurd h (by simp)
        · next hcond =>
          simp only [Option.some.injEq, Prod.mk.injEq] at h
          rw [Bool.not_eq_true, Bool.or_eq_false_iff, Bool.not_eq_false'] at hcond
          exact Or.inr ⟨t, b, h.1.symm, h.2.symm, hcond.1, hcond.2⟩

/-- Every successful attempt has the anchor shape (dress xor top+bottom,
the pair compatible) and a well-formed accessory list. -/
theorem attempt_success_props (items : List ClothingItem) (lvl : Nat)
    (r : AttemptRand) (o : Outfit)
    (h : attempt items lvl r = .success o) :
    ((∃ d, o.dress = some d ∧ o.top = none ∧ o.bottom = none) ∨
     (o.dress = none ∧ ∃ t b, o.top = some t ∧ o.bottom = some b ∧
       _do_formalities_match (some t) (some b) 1 = true ∧
       _do_colors_clash t.color b.color = false)) ∧
    o.accessories.length ≤ 3 ∧
    (o.accessories.map (fun i => i.id)).Nodup := by
  unfold attempt at h
  split at h
  · exact absurd h (by simp)
  · next o0 sel heq =>
    split at h
    · exact absurd h (by simp)
    · dsimp only at h
      split at h
      · next hpat =>
        simp only [AttemptResult.success.injEq] at h
        subst h
        have hanchor := anchorStep_eq _ _ _ _ _ _ heq
        have h1 := outerStep_fields (suitablePool items "Outerwear" lvl) r.outerIdx o0 sel
        set p1 := outerStep (suitablePool items "Outerwear" lvl) r.outerIdx o0 sel with hp1
        have h2 := shoesStep_fields (suitablePool items "Shoes" lvl) r.shoesIdx p1.1 p1.2
        set p2 := shoesStep (suitablePool items "Shoes" lvl) r.shoesIdx p1.1 p1.2 with hp2
        have h3 := accessoriesStep_fields (suitablePool items "Accessory" lvl) r p2.1 p2.2
        have h4 := accessoriesStep_accs (suitablePool items "Accessory" lvl) r p2.1 p2.2
        set p3 := accessoriesStep (suitablePool items "Accessory" lvl) r p2.1 p2.2 with hp3
        constructor
        · rcases hanchor with ⟨d, ho, _⟩ | ⟨t, b, ho, _, hf, hc⟩
          · subst ho
            exact Or.inl ⟨d, by rw [h3.2.2, h2.2.2.1, h1.2.2.1],
              by rw [h3.1, h2.1, h1.1], by rw [h3.2.1, h2.2.1, h1.2.1]⟩
          · subst ho
            exact Or.inr ⟨by rw [h3.2.2, h2.2.2.1, h1.2.2.1],
              t, b, by rw [h3.1, h2.1, h1.1], by rw [h3.2.1, h2.2.1, h1.2.1], hf, hc⟩
        · rcases h4 with h4 | h4
          · rw [h4, h2.2.2.2, h1.2.2.2]
            rcases hanchor with ⟨d, ho, _⟩ | ⟨t, b, ho, _, _, _⟩ <;> subst ho <;> simp
          · exact h4
      · exact absurd h (by simp)

/-- A successful generation is the result of some successful attempt. -/
theorem generate_aux_success (items : List ClothingItem) (lvl : Nat)
    (rands : Nat → AttemptRand) (fuel k : Nat) (o : Outfit)
    (h : generate_outfit_aux items lvl rands fuel k = some o) :
    ∃ j, attempt items lvl (rands j) = .success o := by
  induction fuel generalizing k with
  | zero => exact absurd h (by simp [generate_outfit_aux])
  | succ n ih =>
    unfold generate_outfit_aux at h
    split at h
    · next o' heq =>
      simp only [Option.some.injEq] at h
      subst h
      exact ⟨k, heq⟩
    · exact absurd h (by simp)
    · exact ih _ h

/-- If every attempt is rejected, the loop exhausts its budget and returns
`None`. -/
theorem generate_aux_none (items : List ClothingItem) (lvl : Nat)
    (rands : Nat → AttemptRand) (fuel k : Nat)
    (h : ∀ j, attempt items lvl (rands j) = .retry) :
    generate_outfit_aux items lvl rands fuel k = none := by
  induction fuel generalizing k with
  | zero => rfl
  | succ n ih =>
    unfold generate_outfit_aux
    rw [h k]
    exact ih (k + 1)

/-- Unfolding one loop iteration. -/
theorem generate_aux_step (items : List ClothingItem) (lvl : Nat)
    (rands : Nat → AttemptRand) (fuel k : Nat) :
    generate_outfit_aux items lvl rands (fuel + 1) k =
      match attempt items lvl (rands k) with
      | .success o => some o
      | .permFail => none
      | .retry => generate_outfit_aux items lvl rands fuel (k + 1) := rfl

/-- With a red top and a green bottom as the only items, every attempt is
rejected: the only possible anchor pair clashes. -/
theorem attempt_red_green (idR idG : Nat) (pR fR pG fG : String) (lvl : Nat)
    (r : AttemptRand) :
    attempt [⟨idR, "Top", "red", pR, fR⟩, ⟨idG, "Bottom", "green", pG, fG⟩] lvl r
      = .retry := by
  have hc : _do_colors_clash "red" "green" = true := by decide
  by_cases hR : _is_item_suitable_for_occasion ⟨idR, "Top", "red", pR, fR⟩ lvl = true <;>
  by_cases hG : _is_item_suitable_for_occasion ⟨idG, "Bottom", "green", pG, fG⟩ lvl = true <;>
  simp [attempt, anchorStep, suitablePool, itemsOf, List.filter_cons, hR, hG,
    _get_random_element, hc, Nat.mod_one]

/-- With exactly one black casual top and one black casual bottom, an
attempt at occasion level 0 succeeds with exactly that pair whenever the
pair passes the pattern gate. -/
theorem attempt_two_blacks (p1 p2 : String) (r : AttemptRand)
    (hpat : _do_patterns_match [⟨1, "Top", "black", p1, "Casual"⟩,
      ⟨2, "Bottom", "black", p2, "Casual"⟩] = true) :
    attempt [⟨1, "Top", "black", p1, "Casual"⟩, ⟨2, "Bottom", "black", p2, "Casual"⟩] 0 r
      = .success ⟨some ⟨1, "Top", "black", p1, "Casual"⟩,
          some ⟨2, "Bottom", "black", p2, "Casual"⟩, none, none, [], none⟩ := by
  simp [attempt, anchorStep, suitablePool, itemsOf, List.filter_cons,
    _is_item_suitable_for_occasion, _get_random_element, Nat.mod_one,
    outerStep, shoesStep, accessoriesStep, hpat,
    _do_formalities_match, _do_colors_clash, str_lower, neutral_colors]

/-- With a striped black top and a floral black bottom, the pattern gate
rejects every attempt at occasion level 0. -/
theorem attempt_two_blacks_fail (r : AttemptRand) :
    attempt [⟨1, "Top", "black", "Striped", "Casual"⟩,
      ⟨2, "Bottom", "black", "Floral", "Casual"⟩] 0 r = .retry := by
  simp [attempt, anchorStep, suitablePool, itemsOf, List.filter_cons,
    _is_item_suitable_for_occasion, _get_random_element, Nat.mod_one,
    outerStep, shoesStep, accessoriesStep,
    _do_patterns_match, str_lower,
    _do_formalities_match, _do_colors_clash, neutral_colors]

/-- The demo catalog generates the demo outfit under the fixed stream. -/
theorem generate_demo_eq :
    generate_outfit demoItems "Any" demoRands = some demoOutfit := by decide

/-! ### Claims about the assembler -/

/-- C1: for every occasion label, calling generate on an empty catalog
returns absent immediately: the empty-wardrobe guard fires before the
search loop, so 0 of the 1000 attempts are consumed. -/
theorem generate_empty_catalog_short_circuits (occ : String)
    (rands : Nat → AttemptRand) :
    app_generate_outfit [] occ rands = none ∧
    app_generate_attempts [] occ rands = 0 ∧
    app_generate_attempts [] occ rands < max_attempts :=
  ⟨rfl, rfl, (by decide : (0 : Nat) < 1000)⟩

/-- C2 counterexample: with a black Striped top and a black Floral bottom
(both patterns non-solid), generation at occasion `Any` returns absent over
the whole attempt budget instead of the claimed two-item outfit. -/
theorem generate_two_blacks_counterexample :
    generate_outfit [⟨1, "Top", "black", "Striped", "Casual"⟩,
      ⟨2, "Bottom", "black", "Floral", "Casual"⟩] "Any" (fun _ => defaultRand)
      = none := by
  unfold generate_outfit
  apply generate_aux_none
  intro j
  have h0 : occasion_formality_map "Any" = 0 := rfl
  rw [h0]
  exact attempt_two_blacks_fail defaultRand

/-- C2 (amended): for a catalog of exactly one black Casual top and one
black Casual bottom whose pattern pair passes the pattern-mixing gate (at
most one non-solid), generate with occasion `Any` returns the outfit with
exactly those two items as top and bottom, no dress, no outerwear, no
shoes, and no accessories — whatever the random draws. -/
theorem generate_two_blacks (p1 p2 : String) (rands : Nat → AttemptRand)
    (hpat : _do_patterns_match [⟨1, "Top", "black", p1, "Casual"⟩,
      ⟨2, "Bottom", "black", p2, "Casual"⟩] = true) :
    generate_outfit [⟨1, "Top", "black", p1, "Casual"⟩,
      ⟨2, "Bottom", "black", p2, "Casual"⟩] "Any" rands
      = some ⟨some ⟨1, "Top", "black", p1, "Casual"⟩,
          some ⟨2, "Bottom", "black", p2, "Casual"⟩, none, none, [], none⟩ := by
  unfold generate_outfit
  have h0 : occasion_formality_map "Any" = 0 := rfl
  rw [h0, show max_attempts = 999 + 1 from rfl, generate_aux_step,
    attempt_two_blacks p1 p2 (rands 0) hpat]

/-- Witness for C2 (amended) at a concrete solid/striped pattern pair. -/
theorem generate_two_blacks_witness :
    _do_patterns_match [⟨1, "Top", "black", "Solid", "Casual"⟩,
      ⟨2, "Bottom", "black", "Striped", "Casual"⟩] = true ∧
    generate_outfit [⟨1, "Top", "black", "Solid", "Casual"⟩,
      ⟨2, "Bottom", "black", "Striped", "Casual"⟩] "Any" (fun _ => defaultRand)
      = some ⟨some ⟨1, "Top", "black", "Solid", "Casual"⟩,
          some ⟨2, "Bottom", "black", "Striped", "Casual"⟩, none, none, [], none⟩ :=
  ⟨by decide, generate_two_blacks "Solid" "Striped" (fun _ => defaultRand) (by decide)⟩

/-- C5: a catalog of exactly one red top and one green bottom (a clashing
pair) generates absent for every occasion label and every random stream. -/
theorem generate_red_green_absent (idR idG : Nat) (pR fR pG fG : String)
    (occ : String) (rands : Nat → AttemptRand) :
    generate_outfit [⟨idR, "Top", "red", pR, fR⟩, ⟨idG, "Bottom", "green", pG, fG⟩]
      occ rands = none := by
  unfold generate_outfit
  apply generate_aux_none
  intro j
  exact attempt_red_green idR idG pR fR pG fG _ (rands j)

/-- C6: every generated outfit has a dress or a full top+bottom pair, and a
present top+bottom pair is formality-compatible within tolerance 1 and
non-clashing. -/
theorem generate_anchor_invariant (items : List ClothingItem) (occ : String)
    (rands : Nat → AttemptRand) (o : Outfit)
    (h : generate_outfit items occ rands = some o) :
    (o.dress.isSome ∨ (o.top.isSome ∧ o.bottom.isSome)) ∧
    (∀ t b, o.top = some t → o.bottom = some b →
      _do_formalities_match (some t) (some b) 1 = true ∧
      _do_colors_clash t.color b.color = false) := by
  unfold generate_outfit at h
  obtain ⟨j, hj⟩ := generate_aux_success _ _ _ _ _ _ h
  obtain ⟨hshape, -, -⟩ := attempt_success_props _ _ _ _ hj
  rcases hshape with ⟨d, hd, ht, hb⟩ | ⟨hd, t, b, ht, hb, hf, hc⟩
  · refine ⟨Or.inl (by simp [hd]), ?_⟩
    intro t' b' ht' hb'
    rw [ht] at ht'
    exact absurd ht' (by simp)
  · refine ⟨Or.inr ⟨by simp [ht], by simp [hb]⟩, ?_⟩
    intro t' b' ht' hb'
    rw [ht] at ht'
    rw [hb] at hb'
    obtain rfl : t' = t := by simpa using ht'.symm
    obtain rfl : b' = b := by simpa using hb'.symm
    exact ⟨hf, hc⟩

/-- Witness for C6 at the demo catalog. -/
theorem generate_anchor_invariant_witness :
    (demoOutfit.dress.isSome ∨ (demoOutfit.top.isSome ∧ demoOutfit.bottom.isSome)) ∧
    (_do_formalities_match (some demoTop) (some demoBottom) 1 = true ∧
     _do_colors_clash demoTop.color demoBottom.color = false) :=
  ⟨(generate_anchor_invariant demoItems "Any" demoRands demoOutfit generate_demo_eq).1,
   (generate_anchor_invariant demoItems "Any" demoRands demoOutfit generate_demo_eq).2
     demoTop demoBottom rfl rfl⟩

/-- C9: every generated outfit carries at most 3 accessories, pairwise
distinct by id. -/
theorem generate_accessories_invariant (items : List ClothingItem) (occ : String)
    (rands : Nat → AttemptRand) (o : Outfit)
    (h : generate_outfit items occ rands = some o) :
    o.accessories.length ≤ 3 ∧ (o.accessories.map (fun i => i.id)).Nodup := by
  unfold generate_outfit at h
  obtain ⟨j, hj⟩ := generate_aux_success _ _ _ _ _ _ h
  exact (attempt_success_props _ _ _ _ hj).2

/-- Witness for C9 at the demo catalog. -/
theorem generate_accessories_invariant_witness :
    demoOutfit.accessories.length ≤ 3 ∧
    (demoOutfit.accessories.map (fun i => i.id)).Nodup :=
  generate_accessories_invariant demoItems "Any" demoRands demoOutfit generate_demo_eq

/-- C4: torso exclusivity at the public interface: generation never returns
both dress and top; applying a dress replacement clears top and bottom;
applying a top or bottom replacement while a dress is set clears the dress;
and every substitution preserves torso exclusivity. -/
theorem torso_exclusivity :
    (∀ (items : List ClothingItem) (occ : String) (rands : Nat → AttemptRand)
       (o : Outfit), generate_outfit items occ rands = some o → torso_ok o = true) ∧
    (∀ (o : Outfit) (item : ClothingItem),
       (applyReplacement o Slot.dress item).top = none ∧
       (applyReplacement o Slot.dress item).bottom = none) ∧
    (∀ (o : Outfit) (item : ClothingItem) (s : Slot),
       o.dress.isSome = true → (s = Slot.top ∨ s = Slot.bottom) →
       (applyReplacement o s item).dress = none) ∧
    (∀ (o : Outfit) (s : Slot) (item : ClothingItem),
       torso_ok o = true → torso_ok (applyReplacement o s item) = true) := by
  refine ⟨?_, ?_, ?_, ?_⟩
  · intro items occ rands o h
    unfold generate_outfit at h
    obtain ⟨j, hj⟩ := generate_aux_success _ _ _ _ _ _ h
    obtain ⟨hshape, -, -⟩ := attempt_success_props _ _ _ _ hj
    rcases hshape with ⟨d, hd, ht, hb⟩ | ⟨hd, t, b, ht, hb, -, -⟩
    · simp [torso_ok, hd, ht, hb]
    · simp [torso_ok, hd]
  · intro o item
    exact ⟨rfl, rfl⟩
  · intro o item s hdress hs
    rcases hs with rfl | rfl <;> simp [applyReplacement, hdress]
  · intro o s item h
    cases s <;> by_cases hd : o.dress.isSome <;>
      simp_all [applyReplacement, torso_ok]

/-- Witness for C4 at concrete outfits and items. -/
theorem torso_exclusivity_witness :
    torso_ok demoOutfit = true ∧
    ((applyReplacement demoOutfit Slot.dress demoDress).top = none ∧
     (applyReplacement demoOutfit Slot.dress demoDress).bottom = none) ∧
    (applyReplacement dressedOutfit Slot.top demoTop).dress = none ∧
    torso_ok (applyReplacement demoOutfit Slot.shoes demoShoes) = true :=
  ⟨torso_exclusivity.1 demoItems "Any" demoRands demoOutfit generate_demo_eq,
   torso_exclusivity.2.1 demoOutfit demoDress,
   torso_exclusivity.2.2.1 dressedOutfit demoTop Slot.top (by decide) (Or.inl rfl),
   torso_exclusivity.2.2.2 demoOutfit Slot.shoes demoShoes (by decide)⟩

end Wardrobe
